import Mathlib

/-!
Verification of the startnerve-backend outline-to-document pipeline.

The development shallowly embeds the Python source files `app.py` and
`course_agent.py`: Python strings become `String`, Python `str.split`,
`str.replace`, `str.strip` and the `in` operator are modelled by executable
character-list functions below, dicts with fixed keys become structures,
exceptions become explicit result constructors, and every external service
call (Gemini text generation, Pexels image search, Firestore, werkzeug's
`secure_filename`, `urllib.parse.quote`, `random.sample`) is an explicit
oracle parameter.
-/

namespace StartNerve

/-- The empty string, named so that it can be passed as a function argument. -/
def EMPTY : String := ""

/-- A single space, named so that it can be passed as a function argument. -/
def SPACE : String := " "

/-- A newline, named so that it can be passed as a function argument. -/
def NEWLINE : String := "\n"

/-- The blank line separating paragraphs in generated prose. -/
def PARA_SEP : String := "\n\n"

/-- If `tok` is a leading run of `s`, return the remainder of `s` after it;
otherwise `none`.  This is the primitive used to model Python's literal
substring search. -/
def dropToken : List Char → List Char → Option (List Char)
  | [], rest => some rest
  | _ :: _, [] => none
  | t :: ts, c :: cs => if c = t then dropToken ts cs else none

/-- Fuel-driven scanner implementing Python `str.split(sep)` (all
occurrences, left to right, non-overlapping) on character lists.  `cur` is
the current piece accumulated in reverse.  The fuel is always instantiated
to more than the length of the scanned list, so the fuel-exhausted branch
is never reached for a non-empty separator. -/
def pySplitRun (sep : List Char) : Nat → List Char → List Char → List (List Char)
  | 0, s, cur => [cur.reverse ++ s]
  | fuel + 1, s, cur =>
    match dropToken sep s with
    | some rest => cur.reverse :: pySplitRun sep fuel rest []
    | none =>
      match s with
      | [] => [cur.reverse]
      | c :: cs => pySplitRun sep fuel cs (c :: cur)

/-- Python `s.split(sep)` for a non-empty literal separator (the only way
the source uses it).  Python raises on an empty separator; the sources
never pass one, and we return `[s]` in that unreachable case. -/
def pySplit (s sep : String) : List String :=
  if sep.data = [] then [s]
  else (pySplitRun sep.data (s.data.length + 1) s.data []).map (fun cs => String.mk cs)

/-- Scanner for the first occurrence of `sep`: returns the pieces before
and after it, or `none` when `sep` does not occur. -/
def firstSplit (sep : List Char) : Nat → List Char → Option (List Char × List Char)
  | 0, _ => none
  | _ + 1, [] => none
  | fuel + 1, c :: cs =>
    match dropToken sep (c :: cs) with
    | some rest => some ([], rest)
    | none => (firstSplit sep fuel cs).map (fun p => (c :: p.1, p.2))

/-- Python `s.split(sep, 1)` (maxsplit 1) for a non-empty separator. -/
def pySplit1 (s sep : String) : List String :=
  if sep.data = [] then [s]
  else
    match firstSplit sep.data (s.data.length + 1) s.data with
    | some (a, b) => [String.mk a, String.mk b]
    | none => [s]

/-- Python `sub in s` for the non-empty literal substrings used by the
source. -/
def pyContains (s sub : String) : Bool :=
  if sub.data = [] then true
  else (firstSplit sub.data (s.data.length + 1) s.data).isSome

/-- Fuel-driven scanner implementing Python `str.replace(old, new)`:
left-to-right, non-overlapping replacement of every occurrence. -/
def pyReplaceRun (old new : List Char) : Nat → List Char → List Char
  | 0, s => s
  | fuel + 1, s =>
    match dropToken old s with
    | some rest => new ++ pyReplaceRun old new fuel rest
    | none =>
      match s with
      | [] => []
      | c :: cs => c :: pyReplaceRun old new fuel cs

/-- Python `s.replace(old, new)` for a non-empty `old` (the only way the
source uses it). -/
def pyReplace (s old new : String) : String :=
  if old.data = [] then s
  else String.mk (pyReplaceRun old.data new.data (s.data.length + 1) s.data)

/-- ASCII whitespace recognised by Python `str.strip()`. -/
def pyIsSpace (c : Char) : Bool :=
  c == ' ' || c == '\t' || c == '\n' || c == '\r' || c == '\x0b' || c == '\x0c'

/-- Python `s.strip()`. -/
def pyStrip (s : String) : String :=
  String.mk (((s.data.dropWhile pyIsSpace).reverse.dropWhile pyIsSpace).reverse)

/-! ## Data model

Shapes of the dicts produced by `parse_outline` (course_agent.py lines
88-114) and consumed downstream. -/

/-- A lesson dict: `{"lesson_title": ..., "learning_objective": ...}`. -/
structure Lesson where
  lesson_title : String
  learning_objective : String
deriving DecidableEq

/-- A module dict: `{"module_title": ..., "lessons": [...]}`. -/
structure Module where
  module_title : String
  lessons : List Lesson
deriving DecidableEq

/-- The outline dict: `{"course_title": ..., "modules": [...]}`. -/
structure Outline where
  course_title : String
  modules : List Module
deriving DecidableEq

/-! ## The outline parser (course_agent.py, `parse_outline`, lines 88-114) -/

/-- Delimiter literal `---MODULE_START---`. -/
def MODULE_START : String := "---MODULE_START---"

/-- Delimiter literal `---MODULE_END---`. -/
def MODULE_END : String := "---MODULE_END---"

/-- Delimiter literal `---LESSON_START---`. -/
def LESSON_START : String := "---LESSON_START---"

/-- Delimiter literal `---LESSON_END---`. -/
def LESSON_END : String := "---LESSON_END---"

/-- Field marker `COURSE_TITLE:`. -/
def COURSE_TITLE : String := "COURSE_TITLE:"

/-- Field marker `MODULE_TITLE:`. -/
def MODULE_TITLE : String := "MODULE_TITLE:"

/-- Field marker `LESSON_TITLE:`. -/
def LESSON_TITLE : String := "LESSON_TITLE:"

/-- Field marker `LEARNING_OBJECTIVE:`. -/
def LEARNING_OBJECTIVE : String := "LEARNING_OBJECTIVE:"

/-- Lines 105-110: one iteration of the lesson loop.  The chunk is
truncated at `---LESSON_END---` (index `[0]` of the split; the split is
never empty, so `headD` never uses its default), then split on
`LEARNING_OBJECTIVE:`; `title_part, *objective_part = ...` takes the first
piece as the title and, when present, the next piece as the objective,
defaulting to "Objective not specified.". -/
def parse_outline_lesson (les_text : String) : Lesson :=
  let lesson_data := (pySplit les_text LESSON_END).headD les_text
  let parts := pySplit lesson_data LEARNING_OBJECTIVE
  { lesson_title := pyStrip (pyReplace (parts.headD lesson_data) LESSON_TITLE EMPTY)
    learning_objective :=
      match parts with
      | _ :: obj :: _ => pyStrip obj
      | _ => "Objective not specified." }

/-- Lines 99-111: one iteration of the module loop.  The chunk is truncated
at `---MODULE_END---`; a chunk not containing `---LESSON_START---` is
skipped (`continue`), modelled by `none`.  Otherwise the chunk is split
once on `---LESSON_START---` (which succeeds exactly when the `in` check
succeeded), the module title is the part before it with `MODULE_TITLE:`
removed and stripped, and the lesson chunks are
`("---LESSON_START---" + lessons_part).split("---LESSON_START---")[1:]`. -/
def parse_outline_module (mod_text : String) : Option Module :=
  let module_parts := (pySplit mod_text MODULE_END).headD mod_text
  match pySplit1 module_parts LESSON_START with
  | module_title_part :: lessons_part :: _ =>
    some
      { module_title := pyStrip (pyReplace module_title_part MODULE_TITLE EMPTY)
        lessons :=
          ((pySplit (LESSON_START ++ lessons_part) LESSON_START).drop 1).map
            parse_outline_lesson }
  | _ => none

/-- Lines 97-111: `modules_text = text.split("---MODULE_START---")[1:]`,
then the module loop; `continue` on a skipped chunk is `filterMap`. -/
def parse_outline_modules (text : String) (course_title : String) : Outline :=
  { course_title
    modules := ((pySplit text MODULE_START).drop 1).filterMap parse_outline_module }

/-- Outcome of the `try` block of `parse_outline`: either it finishes
normally with the fully built dict, or an exception escapes with the dict
in whatever state it had reached. -/
inductive TryResult where
  | ok (o : Outline)
  | exc (data_so_far : Outline)
deriving DecidableEq

/-- Lines 92-111, the body of the `try` block.  If `COURSE_TITLE:` occurs,
the text after it is split once on `---MODULE_START---`; when that marker
is missing, `title_and_rest[1]` raises `IndexError` after
`data["course_title"]` has already been assigned, so the exception escapes
carrying the partially filled dict (`TryResult.exc`).  When the marker is
present the scan continues on `"---MODULE_START---" + title_and_rest[1]`.
When `COURSE_TITLE:` is absent the original text is scanned with an empty
course title. -/
def parse_outline_try (text : String) : TryResult :=
  match pySplit1 text COURSE_TITLE with
  | _ :: rest :: _ =>
    (match pySplit1 rest MODULE_START with
     | t :: r :: _ => .ok (parse_outline_modules (MODULE_START ++ r) (pyStrip t))
     | [t] => .exc { course_title := pyStrip t, modules := [] }
     | [] => .exc { course_title := EMPTY, modules := [] })
  | _ => .ok (parse_outline_modules text EMPTY)

/-- Lines 88-114, `parse_outline`: falsy input returns the initial dict;
otherwise the `try` block runs and `except Exception` catches any
exception, logs it, and falls through to `return data`. -/
def parse_outline (text : String) : Outline :=
  if text = "" then { course_title := "", modules := [] }
  else
    match parse_outline_try text with
    | .ok o => o
    | .exc d => d

/-- The same function viewed in an explicit exception monad: `.error`
would mean an exception escaped `parse_outline` to its caller.  The
`except Exception` handler absorbs the only raising path
(`TryResult.exc`), so no branch produces `.error`. -/
def parse_outline_run (text : String) : Except Unit Outline :=
  if text = "" then .ok { course_title := "", modules := [] }
  else
    match parse_outline_try text with
    | .ok o => .ok o
    | .exc d => .ok d

/-! ## course_agent.py service wrappers

The Gemini model object and its `generate_content` call are external; they
are modelled by a `model_configured` flag (course_agent.py lines 16-22 can
leave `model = None`) and an oracle `call : Except Unit String` standing
for the network call: `.error` is a raised exception, `.ok t` is a reply
whose `.text` attribute is `t`. -/

/-- Lines 34-43, `_safe_gemini_call`: unconfigured model or a raised
exception yield the fallback; `response.text or fallback` substitutes the
fallback for a falsy (empty) reply. -/
def safe_gemini_call (model_configured : Bool) (call : Except Unit String)
    (fallback : String) : String :=
  if !model_configured then fallback
  else
    match call with
    | .error _ => fallback
    | .ok t => if t = EMPTY then fallback else t

/-- Literal `**`. -/
def TOK_BOLD : String := "**"

/-- Literal ` ```html `. -/
def TOK_FENCE_HTML : String := "```html"

/-- Literal ` ``` `. -/
def TOK_FENCE : String := "```"

/-- Lines 45-47, `_clean_response`: falsy text becomes `""`; otherwise the
three markdown artifacts are removed and the result is stripped. -/
def clean_response (text : String) : String :=
  if text = EMPTY then EMPTY
  else pyStrip (pyReplace (pyReplace (pyReplace text TOK_BOLD EMPTY) TOK_FENCE_HTML EMPTY) TOK_FENCE EMPTY)

/-- The hard-coded fallback outline of `generate_outline` (line 86). -/
def OUTLINE_FALLBACK : String :=
  "COURSE_TITLE: Untitled\n---MODULE_START---\nMODULE_TITLE: Getting Started\n---LESSON_START---\nLESSON_TITLE: Introduction\nLEARNING_OBJECTIVE: Understand the basics.\n---LESSON_END---\n---MODULE_END---"

/-- Lines 50-86, `generate_outline`: the prompt only feeds the external
call (already folded into the oracle), so the function is
`_safe_gemini_call` with the fixed fallback outline. -/
def generate_outline (model_configured : Bool) (call : Except Unit String) : String :=
  safe_gemini_call model_configured call OUTLINE_FALLBACK

/-- The fallback of `generate_lesson_content` (line 134). -/
def LESSON_CONTENT_FALLBACK : String := "<p>Error generating lesson.</p>"

/-- Lines 116-135, `generate_lesson_content`: `_clean_response` applied to
the service reply (or the apology fallback). -/
def generate_lesson_content (model_configured : Bool) (call : Except Unit String) : String :=
  clean_response (safe_gemini_call model_configured call LESSON_CONTENT_FALLBACK)

/-! ## course_agent.py `find_unique_image` (lines 137-156) -/

/-- A Pexels photo as used by the source: its `id` and `large2x` URL. -/
structure Photo where
  id : Int
  large2x : String
deriving DecidableEq

/-- The image dict `{"url": ..., "id": ...}`; `id` is `None` for
placeholder images. -/
structure ImageResult where
  url : String
  id : Option Int
deriving DecidableEq

/-- Base of the placehold.co URLs built on lines 139 and 156. -/
def PLACEHOLD_TEXT : String := "https://placehold.co/800x450/1a202c/e2e8f0?text="

/-- Python `content.split()`: split on whitespace runs, no empty pieces. -/
def pyWhitespaceSplit (s : String) : List String :=
  (s.split pyIsSpace).filter (fun w => w ≠ EMPTY)

/-- Lines 144-155: the five-attempt loop.  `search` is the Pexels
`search`/`get_entries` pair as an oracle from (query, page) to either a
raised exception (`.error`, which `break`s out of the loop) or the page's
photo list.  A non-empty page whose first photo has an unused id returns
that photo; otherwise the next page is tried. -/
def find_image_loop (search : String → Nat → Except Unit (List Photo)) (q : String)
    (used_ids : List Int) : Nat → Nat → Option Photo
  | _, 0 => none
  | attempt, fuel + 1 =>
    match search q (attempt + 1) with
    | .error _ => none
    | .ok [] => find_image_loop search q used_ids (attempt + 1) fuel
    | .ok (photo :: _) =>
      if photo.id ∈ used_ids then find_image_loop search q used_ids (attempt + 1) fuel
      else some photo

/-- Outcome of the attempt loop (lines 144-156): a found photo is
returned with its id appended to `used_ids`; otherwise the placeholder
with a `None` id is returned and `used_ids` is untouched. -/
def find_unique_image_result (search : String → Nat → Except Unit (List Photo))
    (enhanced_query : String) (used_ids : List Int) : ImageResult × List Int :=
  match find_image_loop search enhanced_query used_ids 0 5 with
  | some photo => ({ url := photo.large2x, id := some photo.id }, used_ids ++ [photo.id])
  | none => ({ url := PLACEHOLD_TEXT ++ "No+Image", id := none }, used_ids)

/-- Lines 137-156, `find_unique_image`.  `pexels_configured` models the
module-level `pexels_api` being non-`None`; `quote` is
`urllib.parse.quote`; `sample` is `random.sample(keywords, min(2,
len(keywords)))`.  The mutation `used_ids.append(photo.id)` is returned as
the second component. -/
def find_unique_image (pexels_configured : Bool) (quote : String → String)
    (sample : List String → List String)
    (search : String → Nat → Except Unit (List Photo))
    (title content : String) (used_ids : List Int) : ImageResult × List Int :=
  if !pexels_configured then
    ({ url := PLACEHOLD_TEXT ++ quote title, id := none }, used_ids)
  else
    let keywords := (pyWhitespaceSplit content).filter (fun w => 5 < w.length)
    let enhanced_query :=
      if keywords = [] then title
      else title ++ SPACE ++ String.intercalate SPACE (sample keywords)
    find_unique_image_result search enhanced_query used_ids

/-- Line 150's membership test `photo.id not in used_ids`: one proxy call
reading the shared `Manager` list. -/
def check_not_used (photo : Photo) (used_ids : List Int) : Bool :=
  decide (photo.id ∉ used_ids)

/-- Line 151's `used_ids.append(photo.id)`: a second, separate proxy call
writing the shared `Manager` list. -/
def append_id (photo : Photo) (used_ids : List Int) : List Int :=
  used_ids ++ [photo.id]

/-- One racing interleaving of two concurrent `find_unique_image` calls.
Line 302 of app.py runs the `process_lesson` tasks in a
`ThreadPoolExecutor` sharing one `Manager().list()`, and nothing in the
source serializes the pair of proxy calls on lines 150-151, so the
scheduler may run both tasks' membership checks before either task's
append.  Here each task's first search attempt has already returned a
photo (`photoA`, `photoB`); the steps are: task A runs line 150, task B
runs line 150, task A runs lines 151-152, task B runs lines 151-152.  A
task whose check passed appends its photo's id and returns it; a task
whose check failed would move to its next attempt, which this schedule
does not reach.  The result pairs the two returned ids with the final
state of the shared list. -/
def race_check_check_append_append (photoA photoB : Photo) (used0 : List Int) :
    (Option Int × Option Int) × List Int :=
  let okA := check_not_used photoA used0
  let okB := check_not_used photoB used0
  let used1 := if okA then append_id photoA used0 else used0
  let used2 := if okB then append_id photoB used1 else used1
  ((if okA then some photoA.id else none, if okB then some photoB.id else none), used2)

/-! ## app.py `/api/generate-outline` endpoint (lines 232-262) -/

/-- HTTP outcome of the endpoint: a 200 JSON body carrying the parsed
outline dict, or an error status with its message. -/
inductive ApiResult where
  | ok (o : Outline)
  | err (status : Nat) (msg : String)
deriving DecidableEq

/-- Python truthiness of an optional string field from the request JSON:
falsy iff absent or empty. -/
def pyOptStrFalsy : Option String → Bool
  | none => true
  | some s => s = EMPTY

/-- Python truthiness of the dict `parse_outline` returns (line 258,
`if not parsed_outline`): the dict always carries the two keys
`course_title` and `modules`, and a non-empty dict is truthy, so this is
constantly `true` — including when `modules` is the empty list. -/
def parse_result_truthy (_ : Outline) : Bool := true

/-- Lines 232-262, `generate_outline_endpoint`, after request decoding:
the credit transaction result and the text produced by
`course_agent.generate_outline` are inputs. -/
def generate_outline_endpoint (uid : Option String) (credit_ok : Bool)
    (topic audience : Option String) (outline_text : String) : ApiResult :=
  if pyOptStrFalsy uid then .err 401 "User not authenticated"
  else if !credit_ok then .err 403 "You\x27re out of ebook credits!"
  else if pyOptStrFalsy topic || pyOptStrFalsy audience then
    .err 400 "Missing \x27topic\x27 or \x27audience\x27"
  else if outline_text = EMPTY then .err 500 "Failed to generate outline from AI"
  else if !parse_result_truthy (parse_outline outline_text) then
    .err 500 "Failed to parse outline"
  else .ok (parse_outline outline_text)

/-! ## app.py lesson fan-out (lines 264-308) -/

/-- The per-lesson dict produced by `process_lesson`. -/
structure LessonContent where
  module_title : String
  lesson_title : String
  content : String
  original_order : Nat × Nat
deriving DecidableEq

/-- Python `enumerate(xs, i)`. -/
def enumFrom {α : Type} (i : Nat) : List α → List (Nat × α)
  | [] => []
  | x :: xs => (i, x) :: enumFrom (i + 1) xs

/-- Lines 264-281, `process_lesson`: the generated prose and the image
dict come from the external services (`gen_content`, `image_info`);
`secure` is werkzeug's `secure_filename`.  `image_info` itself is a
non-empty dict, hence truthy, so the image block is emitted exactly when
`image_info.get("url")` is truthy (non-empty). -/
def process_lesson (secure : String → String) (gen_content : String)
    (image_info : ImageResult) (course_title : String) (module : Module)
    (lesson : Lesson) (mod_idx les_idx : Nat) : LessonContent :=
  let image_html :=
    if image_info.url = EMPTY then EMPTY
    else "<div class=\"ai-image\"><img src=\"" ++ image_info.url ++ "\" alt=\""
      ++ secure lesson.lesson_title ++ "\"></div>"
  { module_title := "Module " ++ toString mod_idx ++ ": " ++ module.module_title
    lesson_title := "Lesson " ++ toString mod_idx ++ "." ++ toString les_idx ++ ": " ++ lesson.lesson_title
    content := image_html ++ gen_content
    original_order := (mod_idx, les_idx) }

/-- Lines 295-303: the task list built by the two nested `enumerate(…, 1)`
loops, with each task's external outputs given by `oracle` keyed on the
`(module_index, lesson_index)` pair. -/
def task_results (secure : String → String)
    (oracle : Nat × Nat → String × ImageResult) (course_title : String)
    (outline : Outline) : List LessonContent :=
  (enumFrom 1 outline.modules).flatMap (fun p =>
    (enumFrom 1 p.2.lessons).map (fun q =>
      process_lesson secure (oracle (p.1, q.1)).1 (oracle (p.1, q.1)).2
        course_title p.2 q.2 p.1 q.1))

/-- The `(module_index, lesson_index)` pairs of an outline in document
order. -/
def lesson_keys (outline : Outline) : List (Nat × Nat) :=
  (enumFrom 1 outline.modules).flatMap (fun p =>
    (enumFrom 1 p.2.lessons).map (fun q => (p.1, q.1)))

/-- Python tuple `<=` on the `original_order` keys (the sort key of
line 305). -/
def keyLe (a b : Nat × Nat) : Prop :=
  a.1 < b.1 ∨ (a.1 = b.1 ∧ a.2 ≤ b.2)

/-- Strict module-major, lesson-minor order on keys. -/
def keyLt (a b : Nat × Nat) : Prop :=
  a.1 < b.1 ∨ (a.1 = b.1 ∧ a.2 < b.2)

instance : DecidableRel keyLe := fun a b => by unfold keyLe; infer_instance

instance : DecidableRel keyLt := fun a b => by unfold keyLt; infer_instance

/-- Line 305, `full_content_data.sort(key=lambda x: x["original_order"])`, compares
entries by their key. -/
def content_le (a b : LessonContent) : Prop :=
  keyLe a.original_order b.original_order

instance : DecidableRel content_le := fun a b => by unfold content_le; infer_instance

instance : IsTotal LessonContent content_le :=
  ⟨by intro a b; unfold content_le keyLe; omega⟩

instance : IsTrans LessonContent content_le :=
  ⟨by intro a b c; unfold content_le keyLe; omega⟩

instance : IsAntisymm (Nat × Nat) keyLe :=
  ⟨by
    intro a b h1 h2
    unfold keyLe at h1 h2
    cases a; cases b
    simp only [Prod.mk.injEq]
    omega⟩

/-! ## app.py theme colors (lines 97-105, 384-386) -/

/-- Python `hex_color.lstrip("#")`. -/
def pyLstripHash (s : String) : String :=
  String.mk (s.data.dropWhile (fun c => c == '#'))

/-- Value of one hexadecimal digit, else `none`. -/
def hexDigitVal (c : Char) : Option Nat :=
  if '0' ≤ c ∧ c ≤ '9' then some (c.toNat - '0'.toNat)
  else if 'a' ≤ c ∧ c ≤ 'f' then some (c.toNat - 'a'.toNat + 10)
  else if 'A' ≤ c ∧ c ≤ 'F' then some (c.toNat - 'A'.toNat + 10)
  else none

/-- Python `int(s, 16)` restricted to plain hex-digit strings (the only
shape a valid color reaches it with); anything else raises, i.e. `none`. -/
def pyIntHex (s : String) : Option Nat :=
  if s.data = [] then none
  else s.data.foldl (fun acc c => acc.bind (fun n => (hexDigitVal c).map (fun d => 16 * n + d))) (some 0)

/-- Python slice `s[i:j]`. -/
def pySlice (s : String) (i j : Nat) : String :=
  String.mk ((s.data.drop i).take (j - i))

/-- The `(r, g, b)` tuple of line 104; `none` when `int(…, 16)` raises. -/
def parse_rgb (hex_color : String) : Option (Nat × Nat × Nat) :=
  let h := pyLstripHash hex_color
  match pyIntHex (pySlice h 0 2), pyIntHex (pySlice h 2 4), pyIntHex (pySlice h 4 6) with
  | some r, some g, some b => some (r, g, b)
  | _, _, _ => none

/-- The luminance expression of line 105, with the Python floats modelled
as exact rationals. -/
def luminance (r g b : Nat) : ℚ :=
  0.299 * (r : ℚ) + 0.587 * (g : ℚ) + 0.114 * (b : ℚ)

/-- Lines 102-105, `is_color_dark`; `none` when the channel parse raises. -/
def is_color_dark (hex_color : String) : Option Bool :=
  (parse_rgb hex_color).map (fun p => decide (luminance p.1 p.2.1 p.2.2 < 128))

/-- The six theme colors chosen on line 386 of `get_css_for_style`, in
source order: main text, heading, TOC link, TOC border, box background,
box border. -/
structure ThemeColors where
  main_text_color : String
  heading_color : String
  toc_link_color : String
  toc_border_color : String
  box_bg : String
  box_border : String
deriving DecidableEq

/-- The dark-background branch of line 386. -/
def darkThemeColors : ThemeColors :=
  { main_text_color := "#EAEAEA", heading_color := "#FFFFFF", toc_link_color := "#90cdf4"
    toc_border_color := "#4A5567", box_bg := "rgba(128, 128, 128, 0.1)", box_border := "#555" }

/-- The light-background branch of line 386. -/
def lightThemeColors : ThemeColors :=
  { main_text_color := "#333333", heading_color := "#111111", toc_link_color := "#2c3e50"
    toc_border_color := "#CCCCCC", box_bg := "#f0f0f0", box_border := "#ddd" }

/-- Line 386: the conditional tuple assignment keyed on
`is_color_dark(color_hex)`; `none` when `is_color_dark` raises. -/
def css_theme_colors (color_hex : String) : Option ThemeColors :=
  (is_color_dark color_hex).map (fun dark => if dark then darkThemeColors else lightThemeColors)

/-- The hex literal `#000000`. -/
def BLACK_HEX : String := "#000000"

/-- The hex literal `#FFFFFF` (also the endpoint's default color). -/
def WHITE_HEX : String := "#FFFFFF"

/-! ## app.py document assembly (lines 384-462) -/

/-- One font entry of the `FONT_STYLES` table (lines 97-100). -/
structure FontStyle where
  font_import : String
  body : String
  headings : String
deriving DecidableEq

/-- The `roboto` entry of `FONT_STYLES`. -/
def robotoStyle : FontStyle :=
  { font_import := "@import url(\x27https://fonts.googleapis.com/css2?family=Roboto:wght@400;700&display=swap\x27);"
    body := "font-family: \x27Roboto\x27, sans-serif;"
    headings := "font-family: \x27Roboto\x27, sans-serif; font-weight: 700;" }

/-- The `merriweather` entry of `FONT_STYLES`. -/
def merriweatherStyle : FontStyle :=
  { font_import := "@import url(\x27https://fonts.googleapis.com/css2?family=Merriweather:wght@400;700&display=swap\x27);"
    body := "font-family: \x27Merriweather\x27, serif;"
    headings := "font-family: \x27Merriweather\x27, serif;" }

/-- Lookup `FONT_STYLES.get(font_name, FONT_STYLES["roboto"])`. -/
def font_styles_lookup (font_name : String) : FontStyle :=
  if font_name = "roboto" then robotoStyle
  else if font_name = "merriweather" then merriweatherStyle
  else robotoStyle

/-- The `<style>` block assembled by `get_css_for_style` (lines 388-411).
Literal CSS braces are written `\x7b`/`\x7d`; the interpolated pieces are
spliced at exactly the f-string's positions.  The fixed CSS text between
the splices is abbreviated faithfully by keeping it verbatim. -/
def css_string (font : FontStyle) (color_hex : String) (tc : ThemeColors) : String :=
  "<style>\n        " ++ font.font_import
  ++ "\n        @page \x7b size: A4; margin: 2.5cm 2cm; @bottom-center \x7b content: \x27Page \x27 counter(page); font-size: 10pt; color: #888; \x7d \x7d\n        body \x7b background-color: "
  ++ color_hex ++ "; line-height: 1.6; font-size: 11pt; color: " ++ tc.main_text_color ++ "; " ++ font.body
  ++ " \x7d\n        h1, h2, h3, h4 \x7b page-break-after: avoid; color: " ++ tc.heading_color ++ "; " ++ font.headings
  ++ " \x7d\n        h1 \x7bfont-size: 36pt;\x7d h2 \x7bfont-size: 24pt;\x7d h3 \x7bfont-size: 18pt;\x7d h4 \x7bfont-size: 14pt;\x7d\n        h2.module-title, .executive-summary-page, .action-guide-page \x7b page-break-before: always; \x7d\n        .title-page, .toc-page \x7b page-break-after: always; \x7d\n        .title-page \x7b text-align: center; display: flex; flex-direction: column; align-items: center; justify-content: center; height: 20cm; \x7d\n        .title-page h1 \x7b font-size: 42pt; margin: 0; \x7d .title-page h3 \x7b font-size: 16pt; margin-top: 1cm; font-weight: normal; \x7d\n        .title-page img \x7b max-width: 18cm; max-height: 18cm; object-fit: contain; \x7d\n        .toc-page h2, .executive-summary-page h2, .action-guide-page h2 \x7b border-bottom: 2px solid "
  ++ tc.toc_border_color
  ++ "; padding-bottom: 10px; \x7d\n        .toc-page ul \x7b list-style-type: none; padding-left: 0; \x7d .toc-module \x7b font-size: 14pt; font-weight: bold; margin-bottom: 15px; \x7d\n        .toc-lessons \x7b padding-left: 25px; margin-top: 10px; list-style-type: none; \x7d .toc-lessons li \x7b margin-bottom: 10px; font-size: 11pt; \x7d\n        .toc-page a \x7b text-decoration: none; color: "
  ++ tc.toc_link_color
  ++ "; \x7d .executive-summary-page ul, .action-guide-page ul \x7b list-style-position: inside; \x7d\n        .lesson \x7b page-break-inside: avoid; margin-top: 30px; \x7d\n        .lesson h4 \x7b padding: 10px 15px; border-radius: 4px; font-weight: bold; text-transform: uppercase; margin-bottom: 15px; background-color: "
  ++ tc.box_bg
  ++ "; \x7d\n        .lesson-content \x7b margin-top: 10px; text-align: justify; \x7d .lesson-content p \x7b margin-bottom: 1em; \x7d\n        .lesson-content ul, .lesson-content ol \x7b margin-left: 20px; margin-bottom: 1em; \x7d .lesson-content li \x7b margin-bottom: 0.5em; \x7d\n        .ai-image \x7b text-align: center; margin: 2em 0; clear: both; page-break-inside: avoid; overflow: hidden; \x7d\n        .ai-image img \x7b max-width: 70%; height: auto; border-radius: 12px; display: block; margin: 0 auto; \x7d\n        .quick-win, .case-study \x7b margin: 1.5em 0; padding: 1em; border-left: 4px solid #7c3aed; background-color: "
  ++ tc.box_bg
  ++ "; border-radius: 4px; page-break-inside: avoid; \x7d\n        .quick-win h5, .case-study h5 \x7b margin-top: 0; font-weight: bold; color: #a78bfa; text-transform: uppercase; \x7d\n    </style>"

/-- Lines 384-411, `get_css_for_style`; `none` when `is_color_dark`
raises on a malformed color. -/
def get_css_for_style (font_name color_hex : String) : Option String :=
  (css_theme_colors color_hex).map (fun tc => css_string (font_styles_lookup font_name) color_hex tc)

/-- The display label `Module N: title` used for headings and anchors. -/
def module_label (mod_idx : Nat) (m : Module) : String :=
  "Module " ++ toString mod_idx ++ ": " ++ m.module_title

/-- The display label `Lesson N.M: title`, the key joining the outline to
generated content. -/
def lesson_label (mod_idx les_idx : Nat) (l : Lesson) : String :=
  "Lesson " ++ toString mod_idx ++ "." ++ toString les_idx ++ ": " ++ l.lesson_title

/-- The placeholder of line 452. -/
def CONTENT_NOT_FOUND : String := "<p>Error: Content not found.</p>"

/-- Line 442 and 452: the dict comprehension keyed on `lesson_title`
(later duplicates overwrite earlier ones, so lookup finds the last match)
and `.get(label, "<p>Error: Content not found.</p>")`. -/
def content_map_get (content_data : List LessonContent) (label : String) : String :=
  match content_data.reverse.find? (fun item => item.lesson_title == label) with
  | some item => item.content
  | none => CONTENT_NOT_FOUND

/-- Python `str.splitlines()` for `\n`-separated text: like split on
newline but without a trailing empty piece. -/
def pySplitlines (s : String) : List String :=
  if s = EMPTY then []
  else
    let parts := pySplit s NEWLINE
    match parts.getLast? with
    | some last => if last = EMPTY then parts.dropLast else parts
    | none => parts

/-- Literal `<p>`. -/
def TAG_P_OPEN : String := "<p>"

/-- Literal `</p>`. -/
def TAG_P_CLOSE : String := "</p>"

/-- The image-div marker filtered out when extracting plain text. -/
def AI_IMAGE_DIV : String := "<div class=\"ai-image\">"

/-- The per-item generator expression of lines 417 and 456: keep the lines
without the image div, strip paragraph tags, newline-terminate. -/
def strip_text (content_html : String) : String :=
  String.join ((pySplitlines content_html).filterMap (fun p =>
    if pyContains p AI_IMAGE_DIV then none
    else some (pyReplace (pyReplace p TAG_P_OPEN EMPTY) TAG_P_CLOSE NEWLINE)))

/-- Lines 416-419: the text handed to the executive-summary service. -/
def full_text_content (content_data : List LessonContent) : String :=
  String.intercalate PARA_SEP (content_data.map (fun item =>
    "## " ++ item.lesson_title ++ NEWLINE ++ strip_text item.content))

/-- Total concatenation of a string list, modelling the `+=` accumulation
of `html_body`. -/
def str_concat : List String → String
  | [] => EMPTY
  | s :: rest => s ++ str_concat rest

/-- Python `host_url.rstrip("/")`. -/
def pyRstripSlash (s : String) : String :=
  String.mk ((s.data.reverse.dropWhile (fun c => c == '/')).reverse)

/-- Literal `/`. -/
def SLASH : String := "/"

/-- Lines 422-425: the cover page for an uploaded image. -/
def cover_block (host_url p : String) : String :=
  let p2 := if p.startsWith SLASH then p else SLASH ++ p
  "<div class=\"title-page\"><img src=\"" ++ pyRstripSlash host_url ++ p2 ++ "\"></div>"

/-- Line 427: the generated title page. -/
def title_block (title : String) : String :=
  "<div class=\"title-page\"><h1>" ++ title ++ "</h1><h3>By StartNerve AI</h3></div>"

/-- Lines 430-438: the table-of-contents entries. -/
def toc_entries (secure : String → String) (outline : Outline) : String :=
  str_concat ((enumFrom 1 outline.modules).map (fun p =>
    "<li class=\"toc-module\"><a href=\"#" ++ secure (module_label p.1 p.2) ++ "\">"
      ++ module_label p.1 p.2 ++ "</a><ul class=\"toc-lessons\">"
      ++ str_concat ((enumFrom 1 p.2.lessons).map (fun q =>
          "<li><a href=\"#" ++ secure (lesson_label p.1 q.1 q.2) ++ "\">"
            ++ lesson_label p.1 q.1 q.2 ++ "</a></li>"))
      ++ "</ul></li>"))

/-- Line 454: one lesson's block, with the content looked up by display
label. -/
def lesson_block (secure : String → String) (content_data : List LessonContent)
    (mod_idx les_idx : Nat) (l : Lesson) : String :=
  "<div class=\x27lesson\x27><h4 id=\x27" ++ secure (lesson_label mod_idx les_idx l) ++ "\x27>"
    ++ lesson_label mod_idx les_idx l ++ "</h4><div class=\"lesson-content\">"
    ++ content_map_get content_data (lesson_label mod_idx les_idx l) ++ "</div></div>"

/-- Lines 448-457: the module's accumulated plain text for the
action-guide call. -/
def module_text_content (content_data : List LessonContent) (mod_idx : Nat) (m : Module) : String :=
  str_concat ((enumFrom 1 m.lessons).map (fun q =>
    "## " ++ lesson_label mod_idx q.1 q.2 ++ NEWLINE
      ++ strip_text (content_map_get content_data (lesson_label mod_idx q.1 q.2)) ++ PARA_SEP))

/-- Lines 443-460: one module's heading, lesson blocks and action-guide
page; `action_guide` is the external `generate_action_guide` call. -/
def module_section (secure : String → String) (action_guide : String → String → String)
    (content_data : List LessonContent) (mod_idx : Nat) (m : Module) : String :=
  "<h2 class=\"module-title\" id=\"" ++ secure (module_label mod_idx m) ++ "\">"
    ++ module_label mod_idx m ++ "</h2>"
    ++ str_concat ((enumFrom 1 m.lessons).map (fun q =>
        lesson_block secure content_data mod_idx q.1 q.2))
    ++ "<div class=\"action-guide-page\"><h2>Action Guide: " ++ m.module_title ++ "</h2>"
    ++ action_guide (module_label mod_idx m) (module_text_content content_data mod_idx m)
    ++ "</div>"

/-- The fixed head opening of line 462. -/
def HTML_HEAD_OPEN : String := "<html><head><meta charset=\x27UTF-8\x27>"

/-- The fixed document closing of line 462. -/
def HTML_TAIL : String := "</body></html>"

/-- Lines 413-462, `build_ebook_html`.  External collaborators are
parameters: `secure` (werkzeug `secure_filename`), `summarize`
(`generate_executive_summary`), `action_guide` (`generate_action_guide`),
`host_url` (`request.host_url`).  The result is `none` exactly when
`get_css_for_style` raises inside `is_color_dark` on a malformed color. -/
def build_ebook_html (secure : String → String) (summarize : String → String)
    (action_guide : String → String → String) (host_url : String)
    (title : String) (outline : Outline) (content_data : List LessonContent)
    (font_name color_hex : String) (cover_image_path : Option String) : Option String :=
  (get_css_for_style font_name color_hex).map (fun html_style =>
    let cover :=
      match cover_image_path with
      | some p => if p = EMPTY then title_block title else cover_block host_url p
      | none => title_block title
    let body :=
      cover
      ++ "<div class=\"toc-page\"><h2>Table of Contents</h2><ul>"
      ++ toc_entries secure outline ++ "</ul></div>"
      ++ "<div class=\"executive-summary-page\"><h2>Executive Summary</h2>"
      ++ summarize (full_text_content content_data) ++ "</div>"
      ++ str_concat ((enumFrom 1 outline.modules).map (fun p =>
          module_section secure action_guide content_data p.1 p.2))
    HTML_HEAD_OPEN ++ html_style ++ "</head><body>" ++ body ++ HTML_TAIL)

/-! ## Concrete sample inputs used by counterexamples and witnesses -/

/-- A module chunk whose single lesson chunk `y` has no
`LEARNING_OBJECTIVE:` marker. -/
def sampleModuleChunkInput : String := "---MODULE_START---x---LESSON_START---y"

/-- The lesson chunk of `sampleModuleChunkInput`. -/
def sampleLessonChunk : String := "y"

/-- A generation text with no outline markers at all. -/
def sampleNoMarkers : String := "This text has no outline markers at all."

/-- A service reply consisting of one paragraph repeated verbatim. -/
def sampleDuplicated : String := "Same paragraph.\n\nSame paragraph."

/-- A user id for endpoint evaluations. -/
def sampleUid : Option String := some "u1"

/-- A topic field for endpoint evaluations. -/
def sampleTopic : Option String := some "gardening"

/-- An audience field for endpoint evaluations. -/
def sampleAudience : Option String := some "beginners"

/-- The hex color used as the spec's own worked luminance example. -/
def sampleThemeHex : String := "#1a202c"

/-- A font choice for concrete document builds. -/
def sampleFont : String := "roboto"

/-- A Pexels photo returned to both racing tasks: two lessons with the
same title (the outline is client-supplied, so duplicate titles are
reachable) produce the same search query, whose first result page holds
the same photo. -/
def samplePhoto : Photo := { id := 7, large2x := "https://images.example.invalid/7-large2x.jpg" }

/-- An identity stand-in for `secure_filename` in concrete evaluations. -/
def sampleSecure : String → String := fun s => s

/-- A constant external-services oracle for concrete fan-out runs. -/
def sampleOracle : Nat × Nat → String × ImageResult :=
  fun _ => (EMPTY, { url := EMPTY, id := none })

/-- A course title for concrete fan-out runs. -/
def sampleCourseTitle : String := "Basics"

/-- A one-module, two-lesson outline for concrete fan-out runs. -/
def sampleOutline : Outline :=
  { course_title := "Basics",
    modules := [{ module_title := "Intro",
                  lessons := [{ lesson_title := "L1", learning_objective := "O1" },
                              { lesson_title := "L2", learning_objective := "O2" }] }] }

/-! ## Lemmas about the Python string primitives -/

theorem dropToken_append (t r : List Char) : dropToken t (t ++ r) = some r := by
  induction t with
  | nil => rfl
  | cons c cs ih => simp [dropToken, ih]

theorem pySplitRun_ne_nil (sep : List Char) (fuel : Nat) :
    ∀ (s cur : List Char), pySplitRun sep fuel s cur ≠ [] := by
  induction fuel with
  | zero => intro s cur; simp [pySplitRun]
  | succ n ih =>
    intro s cur
    simp only [pySplitRun]
    split
    · simp
    · split
      · simp
      · exact ih _ _

theorem pySplitRun_cons_sep (sep p cur : List Char) (fuel : Nat) :
    pySplitRun sep (fuel + 1) (sep ++ p) cur = cur.reverse :: pySplitRun sep fuel p [] := by
  simp only [pySplitRun, dropToken_append]

theorem pySplit_sep_append (S p : String) (hS : S.data ≠ []) :
    ∃ rest, pySplit (S ++ p) S = EMPTY :: rest ∧ rest ≠ [] := by
  refine ⟨(pySplitRun S.data (S.data.length + p.data.length) p.data []).map String.mk, ?_, ?_⟩
  · unfold pySplit
    rw [if_neg hS, String.data_append, List.length_append, pySplitRun_cons_sep]
    simp [EMPTY]
  · simp only [ne_eq, List.map_eq_nil_iff]
    exact pySplitRun_ne_nil _ _ _ _

theorem firstSplit_none_replace (old new : List Char) (hold : old ≠ []) (fuel : Nat) :
    ∀ s : List Char, firstSplit old fuel s = none → pyReplaceRun old new fuel s = s := by
  induction fuel with
  | zero => intro s _; rfl
  | succ n ih =>
    intro s h
    cases s with
    | nil =>
      simp only [pyReplaceRun]
      cases old with
      | nil => exact absurd rfl hold
      | cons a as => simp [dropToken]
    | cons c cs =>
      simp only [firstSplit] at h
      simp only [pyReplaceRun]
      cases hd : dropToken old (c :: cs) with
      | some rest => rw [hd] at h; simp at h
      | none =>
        cases hfs : firstSplit old n cs with
        | some q => rw [hd] at h; simp [hfs] at h
        | none =>
          show c :: pyReplaceRun old new n cs = c :: cs
          rw [ih cs hfs]

theorem pyReplace_of_not_contains (s old new : String) (h : pyContains s old = false) :
    pyReplace s old new = s := by
  unfold pyContains at h
  unfold pyReplace
  by_cases hold : old.data = []
  · rw [if_pos hold]
  · rw [if_neg hold]
    rw [if_neg hold] at h
    have hnone : firstSplit old.data (s.data.length + 1) s.data = none := by
      cases hfs : firstSplit old.data (s.data.length + 1) s.data with
      | none => rfl
      | some q => rw [hfs] at h; simp at h
    rw [firstSplit_none_replace old.data new.data hold _ _ hnone]

/-! ## C5: the parser is total and never lets an exception escape -/

/-- C5: for every input string, the parser, viewed in the exception monad
in which `.error` would mean an escaped exception, always completes with
`.ok`, and its value is the `Outline` that `parse_outline` returns: the
falsy-input guard and the `except Exception` handler cover every raising
path of the body (the `title_and_rest[1]` IndexError made explicit by
`TryResult.exc`). -/
theorem parse_outline_never_raises (text : String) :
    parse_outline_run text = Except.ok (parse_outline text) := by
  by_cases h : text = ""
  · simp [parse_outline, parse_outline_run, h]
  · simp only [parse_outline, parse_outline_run, if_neg h]
    cases parse_outline_try text <;> rfl

/-! ## C6: every parsed module has at least one lesson -/

theorem parse_outline_module_lessons_ne_nil (mod_text : String) (m : Module)
    (h : parse_outline_module mod_text = some m) : m.lessons ≠ [] := by
  simp only [parse_outline_module] at h
  split at h
  next =>
    rename_i mtp lp tl scr
    injection h with h
    subst h
    obtain ⟨rest, hsplit, hne⟩ := pySplit_sep_append LESSON_START lp (by decide)
    show (((pySplit (LESSON_START ++ lp) LESSON_START).drop 1).map parse_outline_lesson) ≠ []
    rw [hsplit]
    simpa using hne
  next => exact absurd h (by simp)

theorem parse_outline_try_ok_shape (text : String) (o : Outline)
    (h : parse_outline_try text = TryResult.ok o) :
    ∃ t ct, o = parse_outline_modules t ct := by
  unfold parse_outline_try at h
  split at h
  · split at h
    · injection h with h; exact ⟨_, _, h.symm⟩
    · simp at h
    · simp at h
  · injection h with h; exact ⟨_, _, h.symm⟩

theorem parse_outline_try_exc_modules (text : String) (d : Outline)
    (h : parse_outline_try text = TryResult.exc d) : d.modules = [] := by
  unfold parse_outline_try at h
  split at h
  · split at h
    · simp at h
    · injection h with h; rw [← h]
    · injection h with h; rw [← h]
  · simp at h

/-- C6: every module in a parse result has a non-empty lesson list — a
module chunk with no `---LESSON_START---` inside its `---MODULE_END---`
bound is dropped by the `continue`, and any surviving chunk contributes at
least one lesson because the re-prefixed split always produces at least
one lesson chunk. -/
theorem parse_outline_modules_have_lessons (text : String) (m : Module)
    (hm : m ∈ (parse_outline text).modules) : m.lessons ≠ [] := by
  by_cases h : text = ""
  · simp [parse_outline, h] at hm
  · unfold parse_outline at hm
    rw [if_neg h] at hm
    cases htry : parse_outline_try text with
    | ok o =>
      rw [htry] at hm
      obtain ⟨t, ct, rfl⟩ := parse_outline_try_ok_shape text o htry
      simp only [parse_outline_modules] at hm
      rw [List.mem_filterMap] at hm
      obtain ⟨chunk, _, hc⟩ := hm
      exact parse_outline_module_lessons_ne_nil chunk m hc
    | exc d =>
      rw [htry] at hm
      rw [parse_outline_try_exc_modules text d htry] at hm
      simp at hm

set_option maxRecDepth 40000 in
/-- Witness for C6 at a concrete input. -/
theorem parse_outline_modules_have_lessons_witness :
    ({ module_title := "x",
       lessons := [{ lesson_title := "y",
                     learning_objective := "Objective not specified." }] } : Module).lessons ≠ [] :=
  parse_outline_modules_have_lessons sampleModuleChunkInput _ (by decide)

/-! ## C4: a lesson chunk without the objective marker -/

set_option maxRecDepth 40000 in
/-- C4 counterexample: the lesson chunk `y` contains no
`LEARNING_OBJECTIVE:` marker, yet parsing does NOT discard it — the lesson
is appended with the default objective, so the claim "no Lesson is added
to the module for such a chunk" is false at this input. -/
theorem lesson_chunk_without_objective_is_kept :
    pyContains sampleLessonChunk LEARNING_OBJECTIVE = false ∧
    parse_outline sampleModuleChunkInput =
      { course_title := EMPTY,
        modules := [{ module_title := "x",
                      lessons := [{ lesson_title := "y",
                                    learning_objective := "Objective not specified." }] }] } := by
  refine ⟨by decide, by decide⟩

/-- C4 amended: a lesson chunk whose truncated body contains no
`LEARNING_OBJECTIVE:` marker (so the split yields a single piece) is still
turned into a `Lesson`, whose `learning_objective` defaults to
`Objective not specified.`. -/
theorem parse_outline_lesson_defaults_objective (les_text : String)
    (h : (pySplit ((pySplit les_text LESSON_END).headD les_text) LEARNING_OBJECTIVE).length = 1) :
    (parse_outline_lesson les_text).learning_objective = "Objective not specified." := by
  cases hp : pySplit ((pySplit les_text LESSON_END).headD les_text) LEARNING_OBJECTIVE with
  | nil => rw [hp] at h; simp at h
  | cons a tl =>
    cases tl with
    | nil =>
      simp only [parse_outline_lesson]
      rw [hp]
    | cons b tl2 => rw [hp] at h; simp at h

set_option maxRecDepth 40000 in
/-- Witness for the amended C4 at the concrete chunk `y`. -/
theorem parse_outline_lesson_defaults_objective_witness :
    (pySplit ((pySplit sampleLessonChunk LESSON_END).headD sampleLessonChunk) LEARNING_OBJECTIVE).length = 1 ∧
    (parse_outline_lesson sampleLessonChunk).learning_objective = "Objective not specified." :=
  ⟨by decide, parse_outline_lesson_defaults_objective sampleLessonChunk (by decide)⟩

/-! ## C3: an outline text parsing to zero modules is NOT answered with 500 -/

set_option maxRecDepth 40000 in
/-- C3: evaluation of the endpoint at an outline text with no module
markers.  `parse_outline` yields zero modules, but line 258's
`if not parsed_outline` tests the truthiness of the two-key dict — always
truthy — so the `"Failed to parse outline"` 500 branch is dead and the
endpoint answers 200 with the empty outline. -/
theorem outline_endpoint_zero_modules_returns_ok :
    (parse_outline sampleNoMarkers).modules = [] ∧
    generate_outline_endpoint sampleUid true sampleTopic sampleAudience sampleNoMarkers =
      ApiResult.ok { course_title := EMPTY, modules := [] } := by
  refine ⟨by decide, by decide⟩

/-! ## C10: generate_outline never returns an empty string -/

theorem generate_outline_ne_empty (cfg : Bool) (call : Except Unit String) :
    generate_outline cfg call ≠ EMPTY := by
  have hfb : OUTLINE_FALLBACK ≠ EMPTY := by decide
  unfold generate_outline safe_gemini_call
  cases cfg
  · simpa using hfb
  · cases call with
    | error e => simpa using hfb
    | ok t =>
      by_cases ht : t = EMPTY
      · simpa [ht] using hfb
      · simpa [ht] using ht

theorem generate_outline_endpoint_no_ai_500 (uid topic audience : Option String)
    (credit_ok : Bool) (s : String) (hs : s ≠ EMPTY) :
    generate_outline_endpoint uid credit_ok topic audience s ≠
      ApiResult.err 500 "Failed to generate outline from AI" := by
  intro hEq
  unfold generate_outline_endpoint at hEq
  split at hEq
  · simp at hEq
  · split at hEq
    · simp at hEq
    · split at hEq
      · simp at hEq
      · split at hEq
        · next h => simp [parse_result_truthy] at h
        · simp at hEq

set_option maxRecDepth 40000 in
/-- C10: whatever the external call does (unconfigured model, exception,
empty or non-empty reply), `generate_outline` returns a non-empty string;
the hard-coded fallback parses to exactly one module with one lesson; and
consequently the endpoint's `Failed to generate outline from AI` 500
branch can never be taken on a text produced by `generate_outline`. -/
theorem generate_outline_nonempty_and_parsable :
    (∀ (cfg : Bool) (call : Except Unit String), generate_outline cfg call ≠ EMPTY) ∧
    parse_outline OUTLINE_FALLBACK =
      { course_title := "Untitled",
        modules := [{ module_title := "Getting Started",
                      lessons := [{ lesson_title := "Introduction",
                                    learning_objective := "Understand the basics." }] }] } ∧
    (∀ (cfg : Bool) (call : Except Unit String) (uid topic audience : Option String)
        (credit_ok : Bool),
      generate_outline_endpoint uid credit_ok topic audience (generate_outline cfg call) ≠
        ApiResult.err 500 "Failed to generate outline from AI") :=
  ⟨generate_outline_ne_empty, by decide,
    fun cfg call uid topic audience credit_ok =>
      generate_outline_endpoint_no_ai_500 uid topic audience credit_ok _
        (generate_outline_ne_empty cfg call)⟩

/-! ## C7: the lesson content generator does not deduplicate or wrap -/

/-- C7 counterexample: on a service reply consisting of the same paragraph
twice, the generator returns the text unchanged — the repeated paragraph
still appears twice and no paragraph tag is added — so the claimed
deduplication and tag-wrapping do not happen. -/
theorem generate_lesson_content_keeps_duplicates :
    generate_lesson_content true (Except.ok sampleDuplicated) = sampleDuplicated ∧
    pySplit (generate_lesson_content true (Except.ok sampleDuplicated)) PARA_SEP =
      ["Same paragraph.", "Same paragraph."] ∧
    pyContains (generate_lesson_content true (Except.ok sampleDuplicated)) TAG_P_OPEN = false := by
  refine ⟨by decide, by decide, by decide⟩

/-- C7 amended: `generate_lesson_content` only applies `_clean_response`
— removal of the literal artifacts `**`, ` ```html `, ` ``` ` and
whitespace stripping — to the service text; on a non-empty reply free of
those artifacts it returns the text verbatim, repeated paragraphs
included, with no paragraph wrapping. -/
theorem generate_lesson_content_identity_on_clean_text (text : String)
    (h0 : text ≠ EMPTY)
    (h1 : pyContains text TOK_BOLD = false)
    (h2 : pyContains text TOK_FENCE_HTML = false)
    (h3 : pyContains text TOK_FENCE = false)
    (h4 : pyStrip text = text) :
    generate_lesson_content true (Except.ok text) = text := by
  unfold generate_lesson_content safe_gemini_call
  simp only [Bool.not_true, Bool.false_eq_true, if_false]
  rw [if_neg h0]
  unfold clean_response
  rw [if_neg h0, pyReplace_of_not_contains text TOK_BOLD EMPTY h1,
    pyReplace_of_not_contains text TOK_FENCE_HTML EMPTY h2,
    pyReplace_of_not_contains text TOK_FENCE EMPTY h3]
  exact h4

/-- Witness for the amended C7 at the duplicated-paragraph reply. -/
theorem generate_lesson_content_identity_on_clean_text_witness :
    sampleDuplicated ≠ EMPTY ∧
    pyContains sampleDuplicated TOK_BOLD = false ∧
    pyContains sampleDuplicated TOK_FENCE_HTML = false ∧
    pyContains sampleDuplicated TOK_FENCE = false ∧
    pyStrip sampleDuplicated = sampleDuplicated ∧
    generate_lesson_content true (Except.ok sampleDuplicated) = sampleDuplicated :=
  ⟨by decide, by decide, by decide, by decide, by decide,
    generate_lesson_content_identity_on_clean_text sampleDuplicated (by decide) (by decide)
      (by decide) (by decide) (by decide)⟩

/-! ## C2: per-call image id claiming, and the shared-list race -/

theorem find_image_loop_not_used (search : String → Nat → Except Unit (List Photo))
    (q : String) (used_ids : List Int) (fuel : Nat) :
    ∀ (attempt : Nat) (p : Photo),
      find_image_loop search q used_ids attempt fuel = some p → p.id ∉ used_ids := by
  induction fuel with
  | zero => intro a p h; simp [find_image_loop] at h
  | succ n ih =>
    intro a p h
    simp only [find_image_loop] at h
    split at h
    · simp at h
    · exact ih _ _ h
    · split at h
      · exact ih _ _ h
      · next hmem =>
        injection h with h
        subst h
        exact hmem

theorem find_unique_image_result_spec (search : String → Nat → Except Unit (List Photo))
    (q : String) (used_ids : List Int) :
    ((find_unique_image_result search q used_ids).1.id = none ∧
      (find_unique_image_result search q used_ids).2 = used_ids) ∨
    (∃ i, (find_unique_image_result search q used_ids).1.id = some i ∧
      i ∉ used_ids ∧
      (find_unique_image_result search q used_ids).2 = used_ids ++ [i]) := by
  unfold find_unique_image_result
  cases hloop : find_image_loop search q used_ids 0 5 with
  | none => exact Or.inl ⟨rfl, rfl⟩
  | some photo =>
    exact Or.inr ⟨photo.id, rfl, find_image_loop_not_used search q used_ids 5 0 photo hloop, rfl⟩

theorem find_unique_image_updates (cfg : Bool) (quote : String → String)
    (sample : List String → List String)
    (search : String → Nat → Except Unit (List Photo))
    (title content : String) (used_ids : List Int) :
    ((find_unique_image cfg quote sample search title content used_ids).1.id = none ∧
      (find_unique_image cfg quote sample search title content used_ids).2 = used_ids) ∨
    (∃ i, (find_unique_image cfg quote sample search title content used_ids).1.id = some i ∧
      i ∉ used_ids ∧
      (find_unique_image cfg quote sample search title content used_ids).2 = used_ids ++ [i]) := by
  cases cfg with
  | false => exact Or.inl ⟨rfl, rfl⟩
  | true => exact find_unique_image_result_spec search _ used_ids

/-- C2: the per-call contract of `find_unique_image` holds — a call
either returns a null id leaving `used_ids` unchanged, or returns an id
that was not yet in `used_ids` and appends it — but the document-level
consequence fails on the code: the line-150 membership check and the
line-151 append are two separate operations on the shared `Manager` list,
so in the allowed interleaving in which both concurrent tasks check
before either appends, both tasks return the same non-null id 7 and the
two LessonContent entries of one document share an image id. -/
theorem find_unique_image_race_breaks_uniqueness :
    (∀ (cfg : Bool) (quote : String → String) (sample : List String → List String)
        (search : String → Nat → Except Unit (List Photo))
        (title content : String) (used_ids : List Int),
      ((find_unique_image cfg quote sample search title content used_ids).1.id = none ∧
        (find_unique_image cfg quote sample search title content used_ids).2 = used_ids) ∨
      (∃ i, (find_unique_image cfg quote sample search title content used_ids).1.id = some i ∧
        i ∉ used_ids ∧
        (find_unique_image cfg quote sample search title content used_ids).2 = used_ids ++ [i])) ∧
    race_check_check_append_append samplePhoto samplePhoto [] = ((some 7, some 7), [7, 7]) :=
  ⟨find_unique_image_updates, by decide⟩


/-! ## C9: luminance threshold and theme contrast -/

/-- C9: `is_color_dark` computes `0.299*r + 0.587*g + 0.114*b < 128` on
the parsed channels (floats modelled as exact rationals); `#000000` is
dark and selects the heading color `#FFFFFF`, while `#FFFFFF` is light and
selects the heading color `#111111`. -/
theorem is_color_dark_theme_contrast :
    (∀ (s : String) (r g b : Nat), parse_rgb s = some (r, g, b) →
        is_color_dark s = some (decide (luminance r g b < 128))) ∧
    is_color_dark BLACK_HEX = some true ∧
    is_color_dark WHITE_HEX = some false ∧
    (css_theme_colors BLACK_HEX).map ThemeColors.heading_color = some WHITE_HEX ∧
    lightThemeColors.heading_color = "#111111" ∧
    (css_theme_colors WHITE_HEX).map ThemeColors.heading_color =
      some lightThemeColors.heading_color := by
  have hgen : ∀ (s : String) (r g b : Nat), parse_rgb s = some (r, g, b) →
      is_color_dark s = some (decide (luminance r g b < 128)) := by
    intro s r g b h
    unfold is_color_dark
    rw [h, Option.map_some']
  have hblack : is_color_dark BLACK_HEX = some true := by
    rw [hgen BLACK_HEX 0 0 0 (by decide)]
    simp only [Option.some.injEq, decide_eq_true_eq]
    norm_num [luminance]
  have hwhite : is_color_dark WHITE_HEX = some false := by
    rw [hgen WHITE_HEX 255 255 255 (by decide)]
    simp only [Option.some.injEq, decide_eq_false_iff_not]
    norm_num [luminance]
  refine ⟨hgen, hblack, hwhite, ?_, by decide, ?_⟩
  · unfold css_theme_colors
    rw [hblack]
    decide
  · unfold css_theme_colors
    rw [hwhite]
    decide

/-- Witness for C9's general conjunct at the spec's own worked example
`#1a202c`, whose channels are (26, 32, 44) with luminance below 128. -/
theorem is_color_dark_theme_contrast_witness :
    parse_rgb sampleThemeHex = some (26, 32, 44) ∧
    is_color_dark sampleThemeHex = some true := by
  refine ⟨by decide, ?_⟩
  rw [is_color_dark_theme_contrast.1 sampleThemeHex 26 32 44 (by decide)]
  simp only [Option.some.injEq, decide_eq_true_eq]
  norm_num [luminance]

/-! ## C1: the fan-out restores document order -/

theorem enumFrom_fst_le {α : Type} :
    ∀ (xs : List α) (j : Nat) (p : Nat × α), p ∈ enumFrom j xs → j ≤ p.1 := by
  intro xs
  induction xs with
  | nil => intro j p hp; simp [enumFrom] at hp
  | cons x rest ih =>
    intro j p hp
    simp only [enumFrom, List.mem_cons] at hp
    rcases hp with rfl | hp
    · exact Nat.le_refl j
    · have := ih (j + 1) p hp
      omega

theorem enumFrom_pairwise_fst {α : Type} :
    ∀ (xs : List α) (j : Nat),
      List.Pairwise (fun a b => a.1 < b.1) (enumFrom j xs) := by
  intro xs
  induction xs with
  | nil => intro j; simp [enumFrom]
  | cons x rest ih =>
    intro j
    simp only [enumFrom]
    rw [List.pairwise_cons]
    refine ⟨?_, ih (j + 1)⟩
    intro b hb
    have := enumFrom_fst_le rest (j + 1) b hb
    omega

theorem lesson_keys_pairwise_aux :
    ∀ (mods : List Module) (j : Nat),
      List.Pairwise keyLt ((enumFrom j mods).flatMap (fun p =>
        (enumFrom 1 p.2.lessons).map (fun q => (p.1, q.1)))) := by
  intro mods
  induction mods with
  | nil => intro j; simp [enumFrom]
  | cons m rest ih =>
    intro j
    simp only [enumFrom, List.flatMap_cons]
    rw [List.pairwise_append]
    refine ⟨?_, ih (j + 1), ?_⟩
    · rw [List.pairwise_map]
      refine (enumFrom_pairwise_fst m.lessons 1).imp ?_
      intro a b hab
      exact Or.inr ⟨rfl, hab⟩
    · intro x hx y hy
      rw [List.mem_map] at hx
      obtain ⟨qa, _, rfl⟩ := hx
      rw [List.mem_flatMap] at hy
      obtain ⟨p, hp, hyp⟩ := hy
      rw [List.mem_map] at hyp
      obtain ⟨qb, _, rfl⟩ := hyp
      have := enumFrom_fst_le rest (j + 1) p hp
      exact Or.inl (by omega)

theorem lesson_keys_pairwise (o : Outline) : List.Pairwise keyLt (lesson_keys o) :=
  lesson_keys_pairwise_aux o.modules 1

theorem task_results_keys (secure : String → String)
    (oracle : Nat × Nat → String × ImageResult) (ct : String) (o : Outline) :
    (task_results secure oracle ct o).map (fun c => c.original_order) = lesson_keys o := by
  unfold task_results lesson_keys
  rw [List.map_flatMap]
  congr 1
  funext p
  rw [List.map_map]
  rfl

/-- C1: whatever permutation of the per-lesson results the concurrent
execution delivers, sorting on `original_order` (line 305) yields a
sequence whose keys are exactly the outline's
`(module_index, lesson_index)` pairs in document order — and that
canonical key sequence is strictly increasing in module-major,
lesson-minor order, so there is exactly one entry per pair. -/
theorem fanout_order_restoration (secure : String → String)
    (oracle : Nat × Nat → String × ImageResult) (course_title : String)
    (outline : Outline) (completed : List LessonContent)
    (hperm : completed.Perm (task_results secure oracle course_title outline)) :
    (List.insertionSort content_le completed).map (fun c => c.original_order) =
      lesson_keys outline ∧
    List.Pairwise keyLt (lesson_keys outline) := by
  have hpair := lesson_keys_pairwise outline
  refine ⟨?_, hpair⟩
  have hsorted : List.Sorted content_le (List.insertionSort content_le completed) :=
    List.sorted_insertionSort content_le completed
  have hperm2 : (List.insertionSort content_le completed).Perm
      (task_results secure oracle course_title outline) :=
    (List.perm_insertionSort content_le completed).trans hperm
  have hkeysperm : ((List.insertionSort content_le completed).map
      (fun c => c.original_order)).Perm (lesson_keys outline) := by
    have := hperm2.map (fun c => c.original_order)
    rwa [task_results_keys] at this
  have hsortedkeys : List.Sorted keyLe ((List.insertionSort content_le completed).map
      (fun c => c.original_order)) := by
    rw [List.Sorted, List.pairwise_map]
    exact hsorted.imp (fun h => h)
  have hcanon : List.Sorted keyLe (lesson_keys outline) := by
    rw [List.Sorted]
    refine hpair.imp ?_
    intro a b h
    unfold keyLt at h
    unfold keyLe
    omega
  exact List.eq_of_perm_of_sorted hkeysperm hsortedkeys hcanon

/-- Witness for C1: the two-lesson sample outline, with the completed
results arriving in reversed order, still sorts to the document-order key
sequence. -/
theorem fanout_order_restoration_witness :
    (List.insertionSort content_le
        ((task_results sampleSecure sampleOracle sampleCourseTitle sampleOutline).reverse)).map
      (fun c => c.original_order) = [(1, 1), (1, 2)] := by
  have h := fanout_order_restoration sampleSecure sampleOracle sampleCourseTitle sampleOutline
    ((task_results sampleSecure sampleOracle sampleCourseTitle sampleOutline).reverse)
    (List.reverse_perm _)
  rw [h.1]
  decide

/-! ## C8: a missing display label degrades to a placeholder -/

theorem str_concat_decomp (l : List String) (x : String) (hx : x ∈ l) :
    ∃ pre post, str_concat l = pre ++ x ++ post := by
  induction l with
  | nil => simp at hx
  | cons a rest ih =>
    rcases List.mem_cons.mp hx with rfl | hx2
    · refine ⟨EMPTY, str_concat rest, ?_⟩
      show x ++ str_concat rest = EMPTY ++ x ++ str_concat rest
      rw [show EMPTY ++ x = x from String.empty_append x]
    · obtain ⟨pre, post, hdecomp⟩ := ih hx2
      refine ⟨a ++ pre, post, ?_⟩
      show a ++ str_concat rest = a ++ pre ++ x ++ post
      rw [hdecomp]
      simp [String.append_assoc]

theorem str_decomp_trans (a b c : String)
    (h1 : ∃ p q, a = p ++ b ++ q) (h2 : ∃ p q, b = p ++ c ++ q) :
    ∃ p q, a = p ++ c ++ q := by
  obtain ⟨p1, q1, e1⟩ := h1
  obtain ⟨p2, q2, e2⟩ := h2
  refine ⟨p1 ++ p2, q2 ++ q1, ?_⟩
  rw [e1, e2]
  simp [String.append_assoc]

theorem content_map_get_missing (content_data : List LessonContent) (label : String)
    (h : ∀ item ∈ content_data, item.lesson_title ≠ label) :
    content_map_get content_data label = CONTENT_NOT_FOUND := by
  unfold content_map_get
  have hnone : content_data.reverse.find? (fun item => item.lesson_title == label) = none := by
    rw [List.find?_eq_none]
    intro x hx hcontra
    exact h x (List.mem_reverse.mp hx) (by simpa using hcontra)
  rw [hnone]

theorem lesson_block_missing (secure : String → String)
    (content_data : List LessonContent) (mi li : Nat) (l : Lesson)
    (h : ∀ item ∈ content_data, item.lesson_title ≠ lesson_label mi li l) :
    ∃ pre post,
      lesson_block secure content_data mi li l = pre ++ CONTENT_NOT_FOUND ++ post := by
  refine ⟨"<div class=\x27lesson\x27><h4 id=\x27" ++ secure (lesson_label mi li l) ++ "\x27>"
      ++ lesson_label mi li l ++ "</h4><div class=\"lesson-content\">", "</div></div>", ?_⟩
  unfold lesson_block
  rw [content_map_get_missing content_data _ h]

theorem module_section_contains_block (secure : String → String)
    (action_guide : String → String → String) (content_data : List LessonContent)
    (mi : Nat) (m : Module) (li : Nat) (l : Lesson)
    (hl : (li, l) ∈ enumFrom 1 m.lessons) :
    ∃ pre post,
      module_section secure action_guide content_data mi m =
        pre ++ lesson_block secure content_data mi li l ++ post := by
  have hmem : lesson_block secure content_data mi li l ∈
      (enumFrom 1 m.lessons).map (fun q => lesson_block secure content_data mi q.1 q.2) :=
    List.mem_map.mpr ⟨(li, l), hl, rfl⟩
  obtain ⟨p2, q2, hdec⟩ := str_concat_decomp _ _ hmem
  refine ⟨("<h2 class=\"module-title\" id=\"" ++ secure (module_label mi m) ++ "\">"
      ++ module_label mi m ++ "</h2>") ++ p2,
    q2 ++ ("<div class=\"action-guide-page\"><h2>Action Guide: " ++ m.module_title ++ "</h2>"
      ++ action_guide (module_label mi m) (module_text_content content_data mi m)
      ++ "</div>"), ?_⟩
  unfold module_section
  rw [hdec]
  simp [String.append_assoc]

/-- C8: if the content map omits the display label of a lesson present in
the outline, `build_ebook_html` still returns a complete HTML document
(one that opens with the fixed head and closes with `</body></html>`)
whose body contains the explicit `Error: Content not found.` paragraph for
that lesson; nothing is raised as long as the theme color itself is valid
(`is_color_dark` succeeding is the one raising path of the function, and
it does not depend on the content map). -/
theorem build_ebook_html_missing_label_placeholder
    (secure : String → String) (summarize : String → String)
    (action_guide : String → String → String)
    (host_url title font_name color_hex : String) (cover_image_path : Option String)
    (outline : Outline) (content_data : List LessonContent)
    (mi li : Nat) (m : Module) (l : Lesson)
    (hm : (mi, m) ∈ enumFrom 1 outline.modules)
    (hl : (li, l) ∈ enumFrom 1 m.lessons)
    (hmissing : ∀ item ∈ content_data, item.lesson_title ≠ lesson_label mi li l)
    (d : Bool) (hcolor : is_color_dark color_hex = some d) :
    ∃ doc,
      build_ebook_html secure summarize action_guide host_url title outline content_data
        font_name color_hex cover_image_path = some doc ∧
      (∃ pre post, doc = pre ++ CONTENT_NOT_FOUND ++ post) ∧
      (∃ mid, doc = HTML_HEAD_OPEN ++ mid ++ HTML_TAIL) := by
  have hcss : get_css_for_style font_name color_hex =
      some (css_string (font_styles_lookup font_name) color_hex
        (if d then darkThemeColors else lightThemeColors)) := by
    unfold get_css_for_style css_theme_colors
    rw [hcolor]
    rfl
  unfold build_ebook_html
  rw [hcss]
  simp only [Option.map_some']
  refine ⟨_, rfl, ?_, ?_⟩
  · -- the placeholder appears in the main content
    have hsecmem : module_section secure action_guide content_data mi m ∈
        (enumFrom 1 outline.modules).map
          (fun p => module_section secure action_guide content_data p.1 p.2) :=
      List.mem_map.mpr ⟨(mi, m), hm, rfl⟩
    obtain ⟨pJ, qJ, hJ⟩ := str_concat_decomp _ _ hsecmem
    have hdoc_sec : ∃ p q,
        (HTML_HEAD_OPEN ++ css_string (font_styles_lookup font_name) color_hex
            (if d then darkThemeColors else lightThemeColors) ++ "</head><body>"
          ++ ((match cover_image_path with
                | some p => if p = EMPTY then title_block title else cover_block host_url p
                | none => title_block title)
              ++ "<div class=\"toc-page\"><h2>Table of Contents</h2><ul>"
              ++ toc_entries secure outline ++ "</ul></div>"
              ++ "<div class=\"executive-summary-page\"><h2>Executive Summary</h2>"
              ++ summarize (full_text_content content_data) ++ "</div>"
              ++ str_concat ((enumFrom 1 outline.modules).map
                  (fun p => module_section secure action_guide content_data p.1 p.2)))
          ++ HTML_TAIL) =
        p ++ module_section secure action_guide content_data mi m ++ q := by
      refine ⟨HTML_HEAD_OPEN ++ css_string (font_styles_lookup font_name) color_hex
          (if d then darkThemeColors else lightThemeColors) ++ "</head><body>"
        ++ ((match cover_image_path with
              | some p => if p = EMPTY then title_block title else cover_block host_url p
              | none => title_block title)
            ++ "<div class=\"toc-page\"><h2>Table of Contents</h2><ul>"
            ++ toc_entries secure outline ++ "</ul></div>"
            ++ "<div class=\"executive-summary-page\"><h2>Executive Summary</h2>"
            ++ summarize (full_text_content content_data) ++ "</div>")
        ++ pJ, qJ ++ HTML_TAIL, ?_⟩
      rw [hJ]
      simp [String.append_assoc]
    exact str_decomp_trans _ _ _
      (str_decomp_trans _ _ _ hdoc_sec
        (module_section_contains_block secure action_guide content_data mi m li l hl))
      (lesson_block_missing secure content_data mi li l hmissing)
  · -- the document is complete: fixed head and tail
    refine ⟨css_string (font_styles_lookup font_name) color_hex
        (if d then darkThemeColors else lightThemeColors) ++ "</head><body>"
      ++ ((match cover_image_path with
            | some p => if p = EMPTY then title_block title else cover_block host_url p
            | none => title_block title)
          ++ "<div class=\"toc-page\"><h2>Table of Contents</h2><ul>"
          ++ toc_entries secure outline ++ "</ul></div>"
          ++ "<div class=\"executive-summary-page\"><h2>Executive Summary</h2>"
          ++ summarize (full_text_content content_data) ++ "</div>"
          ++ str_concat ((enumFrom 1 outline.modules).map
              (fun p => module_section secure action_guide content_data p.1 p.2))), ?_⟩
    simp [String.append_assoc]

/-- Witness for C8: one-module, one-missing-lesson instance with an empty
content list and the default white theme. -/
theorem build_ebook_html_missing_label_placeholder_witness :
    ∃ doc,
      build_ebook_html sampleSecure (fun t => t) (fun mt t => mt ++ t) EMPTY
        sampleCourseTitle sampleOutline [] sampleFont WHITE_HEX none = some doc ∧
      (∃ pre post, doc = pre ++ CONTENT_NOT_FOUND ++ post) ∧
      (∃ mid, doc = HTML_HEAD_OPEN ++ mid ++ HTML_TAIL) := by
  have hwhite : is_color_dark WHITE_HEX = some false := by
    unfold is_color_dark
    rw [(by decide : parse_rgb WHITE_HEX = some (255, 255, 255))]
    simp only [Option.map_some', Option.some.injEq, decide_eq_false_iff_not]
    norm_num [luminance]
  exact build_ebook_html_missing_label_placeholder sampleSecure (fun t => t)
    (fun mt t => mt ++ t) EMPTY sampleCourseTitle sampleFont WHITE_HEX none sampleOutline []
    1 1 { module_title := "Intro",
          lessons := [{ lesson_title := "L1", learning_objective := "O1" },
                      { lesson_title := "L2", learning_objective := "O2" }] }
    { lesson_title := "L1", learning_objective := "O1" }
    (by decide) (by decide) (by simp) false hwhite

end StartNerve
